import Mathlib

/-!
Shallow embedding of `src/translate.py`: a one-shot bulk literal-string
substitution utility.  The script holds a fixed ordered dictionary of
(pattern → replacement) pairs, walks a directory tree for `*.kt` files,
applies the pairs sequentially to each file's content with Python's
`str.replace`, writes the file back only when the content changed, swallows
per-file exceptions with a printed diagnostic, and finally prints the count
and the list of updated file names.
-/

/-- Python `str.replace(pat, repl)` on lists of characters, with a fuel
bound on the recursion: scan left to right; at a position where `pat` is a
non-empty prefix, emit `repl` and resume immediately after the matched
region (non-overlapping); otherwise keep one character and move on.
`fuel = s.length` suffices because every step consumes at least one
character of `s`.  Every pattern the script ever passes is non-empty, so
the empty-pattern case (mapped to the identity here) is never exercised. -/
def replaceFuel (pat repl : List Char) : Nat → List Char → List Char
  | 0, s => s
  | _ + 1, [] => []
  | fuel + 1, c :: rest =>
    if pat.isPrefixOf (c :: rest) && !pat.isEmpty then
      repl ++ replaceFuel pat repl fuel (rest.drop (pat.length - 1))
    else
      c :: replaceFuel pat repl fuel rest

/-- Non-overlapping left-to-right global literal replacement. -/
def replaceList (pat repl s : List Char) : List Char :=
  replaceFuel pat repl s.length s

/-- `content.replace(jp, en)` from `src/translate.py` line 135, lifted to
`String`. -/
def pyReplace (s pat repl : String) : String :=
  String.mk (replaceList pat.data repl.data s.data)

/-- The `translations` dictionary of `src/translate.py` lines 4-125, in
insertion order (Python dicts iterate in insertion order; all keys are
distinct). -/
def translations : List (String × String) := [
  ("未同期", "Never synced"),
  ("準備完了", "Ready"),
  ("実行中", "Running"),
  ("利用可能", "Available"),
  ("エラー", "Error"),
  ("成功", "Success"),
  ("失敗", "Failed"),
  ("警告", "Warning"),
  ("完了", "Complete"),
  ("読み込み中", "Loading"),
  ("今日", "Today"),
  ("昨日", "Yesterday"),
  ("日前", " days ago"),
  ("時間前", " hours ago"),
  ("分前", " minutes ago"),
  ("週間前", " weeks ago"),
  ("ヶ月前", " months ago"),
  ("1minutes以内", "Less than 1 minute ago"),
  ("コンテナ管理", "Container Management"),
  ("ダウンロード管理", "Download Manager"),
  ("ゲーム追加", "Add Game"),
  ("ゲーム詳細", "Game Details"),
  ("設定", "Settings"),
  ("ログイン", "Login"),
  ("ログアウト", "Logout"),
  ("同期", "Sync"),
  ("認証", "Auth"),
  ("保存", "Save"),
  ("削除", "Delete"),
  ("キャンセル", "Cancel"),
  ("閉じる", "Close"),
  ("確認", "Confirm"),
  ("戻る", "Back"),
  ("追加", "Add"),
  ("編集", "Edit"),
  ("更新", "Update"),
  ("再試行", "Retry"),
  ("検索", "Search"),
  ("お気に入り", "Favorites"),
  ("最近プレイしたゲーム", "Recently Played"),
  ("インポートしたゲーム", "Imported Games"),
  ("インポート", "Import"),
  ("インストール", "Install"),
  ("アンインストール", "Uninstall"),
  ("起動", "Launch"),
  ("振動", "Vibration"),
  ("有効", "Enabled"),
  ("無効", "Disabled"),
  ("左スティック", "Left Stick"),
  ("右スティック", "Right Stick"),
  ("トリガー", "Trigger"),
  ("テスト", "Test"),
  ("最近プレイした", "Recently Played"),
  ("お気に入りのゲーム", "Favorite Games"),
  ("インポート済み", "Imported"),
  ("免責事項", "Disclaimer"),
  ("注意事項", "Notes"),
  ("同意する", "I Agree"),
  ("同意しない", "Disagree"),
  ("完了済みクリア", "Clear Completed"),
  ("進行中", "In Progress"),
  ("ダウンロード履歴なし", "No download history"),
  ("一時停止", "Pause"),
  ("再開", "Resume"),
  ("コンテナ", "Container"),
  ("コンテナがありません", "No containers"),
  ("新しいコンテナを作成", "Create New Container"),
  ("コンテナ名", "Container Name"),
  ("コンテナ名を入力してください", "Enter container name"),
  ("コンテナを削除", "Delete Container"),
  ("この操作は取り消せません", "This action cannot be undone"),
  ("作成", "Create"),
  ("サイズ", "Size"),
  ("ゲーム情報", "Game Info"),
  ("プレイ時間", "Play Time"),
  ("最終プレイ日時", "Last Played"),
  ("ソース", "Source"),
  ("ファイルパス", "File Paths"),
  ("実行ファイル", "Executable"),
  ("インストールパス", "Install Path"),
  ("Steam情報", "Steam Info"),
  ("ゲームを起動中", "Launching game"),
  ("ゲームを起動できません", "Cannot launch game"),
  ("直接起動", "Direct Launch"),
  ("Steam経由で起動", "Launch via Steam"),
  ("Steamクライアントを開く", "Open Steam Client"),
  ("設定を開く", "Open Settings"),
  ("未インストール", "Not Installed"),
  ("未設定", "Not Set"),
  ("コントローラー設定", "Controller Settings"),
  ("コントローラーが検出されません", "No controller detected"),
  ("デフォルトに戻す", "Reset to default"),
  ("デッドゾーン", "Deadzone"),
  ("テスト成功", "Test Successful"),
  ("不明なエラー", "Unknown error"),
  ("検索エラー", "Search error"),
  ("ゲームが既に存在します", "Game already exists"),
  ("同期を開始しています", "Starting sync"),
  ("同期中", "Syncing"),
  ("API Keyを入力してください", "Please enter API Key"),
  ("無効なAPI Keyです", "Invalid API Key"),
  ("API Keyを保存しました", "API Key saved"),
  ("Steam設定をクリアしました", "Steam Settings cleared"),
  ("クリアに失敗しました", "Clear failed"),
  ("Steam Clientがインストールされていません", "Steam Client is not installed"),
  ("インストール状態の確認に失敗しました", "Failed to check installation status"),
  ("予期しないエラーが発生しました", "Unexpected error occurred"),
  ("Steam Clientを起動しました", "Steam Client launched"),
  ("Steam Clientがアンインストールされました", "Steam Client has been uninstalled"),
  ("アンインストールに失敗しました", "Uninstall failed"),
  ("Winlator初期化", "Winlator initialization"),
  ("Winlatorを初期化中", "Initializing Winlator"),
  ("初期化に失敗しました", "Initialization failed"),
  ("初期化中にエラーが発生しました", "Error occurred during initialization"),
  ("コントローラー", "Controller")]

/-- The substitution loop of `src/translate.py` lines 134-135:
`for jp, en in translations.items(): content = content.replace(jp, en)`,
over an arbitrary ordered table. -/
def applyTranslations (table : List (String × String)) (s : String) : String :=
  table.foldl (fun c pr => pyReplace c pr.1 pr.2) s

/-- One full pass of the embedded table over a text. -/
def applyAll (s : String) : String :=
  applyTranslations translations s

/-- `pat` occurs as a contiguous substring of `s` (for the non-empty
patterns of the table; `hasOccur [] s` is `s.isEmpty`-independent and
returns `pat.isEmpty` only at the end of the scan). -/
def hasOccur (pat : List Char) : List Char → Bool
  | [] => pat.isEmpty
  | c :: rest => pat.isPrefixOf (c :: rest) || hasOccur pat rest

/-- No pattern of `table` occurs anywhere in `s`. -/
def tableClean (table : List (String × String)) (s : String) : Bool :=
  table.all fun pr => !hasOccur pr.1.data s.data

/-- A file reachable by the walk, as the Rewrite Engine sees it: its
directory components below the root, its base name (`pathlib.Path.name`),
its current content, and whether the read (`f.read_text`) or the write
(`f.write_text`) raises, with the exception message. -/
structure FileModel where
  dir : List String
  name : String
  content : String
  readFails : Option String
  writeFails : Option String

/-- The observable result of processing one file: the content left on disk,
whether the file was opened for writing (`wrote`), whether the write also
succeeded (`wroteOk`), the entry appended to `updated` (if any), and the
diagnostic printed (if any). -/
structure Outcome where
  finalContent : String
  wrote : Bool
  wroteOk : Bool
  reportEntry : Option String
  diag : Option String

/-- The loop body of `src/translate.py` lines 131-140: read, transform,
compare, conditionally write, record; any exception is caught at the file
boundary and printed as `Error {f.name}: {e}`. -/
def processOne (f : FileModel) : Outcome :=
  match f.readFails with
  | some e => ⟨f.content, false, false, none, some ("Error " ++ f.name ++ ": " ++ e)⟩
  | none =>
    let c := applyAll f.content
    if c = f.content then
      ⟨f.content, false, false, none, none⟩
    else
      match f.writeFails with
      | some e => ⟨f.content, true, false, none, some ("Error " ++ f.name ++ ": " ++ e)⟩
      | none => ⟨c, true, true, some f.name, none⟩

/-- Per-file outcomes of the whole run, in traversal order. -/
def runOutcomes (fs : List FileModel) : List Outcome :=
  fs.map processOne

/-- `updated.append(f.name)` (line 138): extend the accumulator with the
report entry of one file, if it produced one. -/
def runStep (acc : List String) (f : FileModel) : List String :=
  match (processOne f).reportEntry with
  | some n => acc ++ [n]
  | none => acc

/-- The `updated` list at the end of the run. -/
def runUpdated (fs : List FileModel) : List String :=
  fs.foldl runStep []

/-- The diagnostics printed during the run, in order. -/
def runDiags (fs : List FileModel) : List String :=
  (runOutcomes fs).filterMap Outcome.diag

/-- The final report of lines 142-144: `Updated {len(updated)} files`
followed by one `  - {name}` line per updated file, in processing order. -/
def outputLines (fs : List FileModel) : List String :=
  ("Updated " ++ toString (runUpdated fs).length ++ " files") ::
    (runUpdated fs).map (fun n => "  - " ++ n)

/-- The fixed root of the walk (`src/translate.py` line 127). -/
def basePath : String :=
  "app/src/main/java/com/steamdeck/mobile/presentation"

/-- The full path of a file, which the report and the diagnostics do NOT
use (they use `f.name` only). -/
def fullPath (f : FileModel) : String :=
  basePath ++ "/" ++ String.intercalate "/" (f.dir ++ [f.name])

/-- The transformed content of a file, a function of its own content. -/
def transformedContent (f : FileModel) : String :=
  applyAll f.content

/-- A pattern-free file: none of the table's patterns occur in "hello". -/
def fileHello : FileModel := ⟨[], "A.kt", "hello", none, none⟩

/-- A file under `ui/` whose read raises a permission error. -/
def fileUiMain : FileModel := ⟨["ui"], "Main.kt", "x", some "Permission denied", none⟩

/-- A file under `settings/` with the same base name, content and error. -/
def fileSettingsMain : FileModel :=
  ⟨["settings"], "Main.kt", "x", some "Permission denied", none⟩

/-- Two files with equal content in different directories, one of which
would fail to write. -/
def fileSuccessA : FileModel := ⟨["a"], "x.kt", "成功", none, none⟩

/-- See `fileSuccessA`. -/
def fileSuccessB : FileModel := ⟨["b"], "y.kt", "成功", none, some "disk full"⟩

theorem replaceFuel_of_no_occur (pat repl : List Char) :
    ∀ (fuel : Nat) (s : List Char), hasOccur pat s = false →
      replaceFuel pat repl fuel s = s := by
  intro fuel
  induction fuel with
  | zero => intro s h; rfl
  | succ n ih =>
    intro s h
    cases s with
    | nil => rfl
    | cons c rest =>
      simp only [hasOccur, Bool.or_eq_false_iff] at h
      simp only [replaceFuel, h.1, Bool.false_and, Bool.false_eq_true, if_false]
      rw [ih rest h.2]

theorem pyReplace_of_no_occur (s pat repl : String)
    (h : hasOccur pat.data s.data = false) : pyReplace s pat repl = s := by
  cases s with
  | mk d =>
    simp only [pyReplace, replaceList]
    rw [replaceFuel_of_no_occur _ _ _ _ h]

theorem applyTranslations_clean (L : List (String × String)) (s : String)
    (h : tableClean L s = true) : applyTranslations L s = s := by
  induction L with
  | nil => rfl
  | cons pr L ih =>
    simp only [tableClean, List.all_cons, Bool.and_eq_true, Bool.not_eq_true'] at h
    simp only [applyTranslations, List.foldl_cons]
    rw [pyReplace_of_no_occur _ _ _ h.1]
    exact ih h.2

theorem reportEntry_eq (f : FileModel) :
    (processOne f).reportEntry =
      if (processOne f).wroteOk then some f.name else none := by
  rcases f with ⟨d, n, c, rf, wf⟩
  cases rf with
  | some e => rfl
  | none =>
    by_cases hc : applyAll c = c
    · simp [processOne, hc]
    · cases wf <;> simp [processOne, hc]

theorem foldl_runStep (fs : List FileModel) :
    ∀ acc : List String,
      fs.foldl runStep acc =
        acc ++ (fs.filter fun f => (processOne f).wroteOk).map FileModel.name := by
  induction fs with
  | nil => intro acc; simp
  | cons f fs ih =>
    intro acc
    simp only [List.foldl_cons, List.filter_cons]
    by_cases hw : (processOne f).wroteOk = true
    · have hs : runStep acc f = acc ++ [f.name] := by
        simp [runStep, reportEntry_eq, hw]
      rw [hs, ih]
      simp [hw]
    · have hs : runStep acc f = acc := by
        simp [runStep, reportEntry_eq, hw]
      rw [hs, ih]
      simp [hw]

theorem runUpdated_eq (fs : List FileModel) :
    runUpdated fs = (fs.filter fun f => (processOne f).wroteOk).map FileModel.name := by
  simpa using foldl_runStep fs []

theorem processOne_error (f : FileModel) (e : String)
    (h : f.readFails = some e ∨
      (f.readFails = none ∧ applyAll f.content ≠ f.content ∧ f.writeFails = some e)) :
    (processOne f).diag = some ("Error " ++ f.name ++ ": " ++ e) ∧
      (processOne f).wroteOk = false ∧ (processOne f).reportEntry = none := by
  rcases h with h | ⟨h1, h2, h3⟩
  · simp [processOne, h]
  · simp [processOne, h1, h2, h3]

theorem wroteOk_iff (f : FileModel) :
    (processOne f).wroteOk = true ↔
      (f.readFails = none ∧ applyAll f.content ≠ f.content ∧ f.writeFails = none) := by
  cases hrf : f.readFails with
  | some e => simp [processOne, hrf]
  | none =>
    by_cases hc : applyAll f.content = f.content
    · simp [processOne, hrf, hc]
    · cases hwf : f.writeFails <;> simp [processOne, hrf, hc, hwf]

/-- C1: substitution applies rules sequentially in table order over the
current text, so cascading occurs: for the table [(A→B), (B→C)] input "A"
yields "C", for the reordered table [(B→C), (A→B)] input "A" yields "B",
and the two orders produce different results. -/
theorem claim_C1_order_sensitivity :
    applyTranslations [("A", "B"), ("B", "C")] "A" = "C" ∧
    applyTranslations [("B", "C"), ("A", "B")] "A" = "B" ∧
    applyTranslations [("A", "B"), ("B", "C")] "A" ≠
      applyTranslations [("B", "C"), ("A", "B")] "A" :=
  ⟨rfl, rfl, by decide⟩

/-- C2: for a readable file, the content is written back (the file is
opened for writing) if and only if the transformed content differs from the
original; a file containing none of the patterns is left byte-for-byte
identical, is never opened for writing, and produces no report entry. -/
theorem claim_C2_persist_iff_changed (f : FileModel) (h : f.readFails = none) :
    ((processOne f).wrote = true ↔ applyAll f.content ≠ f.content) ∧
    (tableClean translations f.content = true →
      (processOne f).finalContent = f.content ∧ (processOne f).wrote = false ∧
        (processOne f).reportEntry = none) := by
  constructor
  · by_cases hc : applyAll f.content = f.content
    · simp [processOne, h, hc]
    · cases hw : f.writeFails <;> simp [processOne, h, hc, hw]
  · intro hcl
    have hid : applyAll f.content = f.content :=
      applyTranslations_clean translations f.content hcl
    simp [processOne, h, hid]

/-- Witness for C2 at a concrete pattern-free file. -/
theorem claim_C2_witness :
    fileHello.readFails = none ∧
    (((processOne fileHello).wrote = true ↔
        applyAll fileHello.content ≠ fileHello.content) ∧
      (tableClean translations fileHello.content = true →
        (processOne fileHello).finalContent = fileHello.content ∧
          (processOne fileHello).wrote = false ∧
          (processOne fileHello).reportEntry = none)) :=
  ⟨rfl, claim_C2_persist_iff_changed fileHello rfl⟩

set_option maxRecDepth 400000 in
/-- C3 fails as stated: the replacement "Please enter API Key" of the rule
for "API Keyを入力してください" ends in "API Key", so on this input the
first pass leaves a new occurrence of that very pattern and a second pass
changes the text again — the substitution is not idempotent. -/
theorem claim_C3_counterexample :
    applyAll (applyAll "API Keyを入力してくださいを入力してください") ≠
      applyAll "API Keyを入力してくださいを入力してください" := by decide

/-- C3 amended: a second application changes nothing exactly on the inputs
whose first-pass output contains no pattern of the table; unconditional
idempotence fails (see the counterexample). -/
theorem claim_C3_idempotent_when_clean (t : String)
    (h : tableClean translations (applyAll t) = true) :
    applyAll (applyAll t) = applyAll t :=
  applyTranslations_clean translations (applyAll t) h

set_option maxRecDepth 400000 in
/-- Witness for the amended C3: a second pass leaves "Ready" unchanged. -/
theorem claim_C3_witness :
    tableClean translations (applyAll "準備完了") = true ∧
      applyAll (applyAll "準備完了") = applyAll "準備完了" :=
  ⟨by decide, claim_C3_idempotent_when_clean "準備完了" (by decide)⟩

/-- C4: replacement within a single rule is non-overlapping, left to right,
resuming after each match: ("aa" → r) on "aaa" yields r ++ "a" for every
replacement r. -/
theorem claim_C4_non_overlap (r : String) : pyReplace "aaa" "aa" r = r ++ "a" := by
  cases r with
  | mk d => rfl

/-- C5 fails as stated: the diagnostic identifies the file by its base name
only, so two files at distinct paths produce the same diagnostic — the
offending path is not reported. -/
theorem claim_C5_counterexample :
    (processOne fileUiMain).diag = (processOne fileSettingsMain).diag ∧
      fullPath fileUiMain ≠ fullPath fileSettingsMain :=
  ⟨rfl, by decide⟩

/-- C5 amended: any read or write error on one file is caught at that
file's boundary, reported with the offending file's base name and the
underlying message, and the file contributes no report entry while the
remaining files are processed exactly as they would be without it. -/
theorem claim_C5_error_isolation (xs ys : List FileModel) (f : FileModel) (e : String)
    (h : f.readFails = some e ∨
      (f.readFails = none ∧ applyAll f.content ≠ f.content ∧ f.writeFails = some e)) :
    (processOne f).diag = some ("Error " ++ f.name ++ ": " ++ e) ∧
    (processOne f).reportEntry = none ∧
    runDiags (xs ++ f :: ys) =
      runDiags xs ++ ("Error " ++ f.name ++ ": " ++ e) :: runDiags ys ∧
    runUpdated (xs ++ f :: ys) = runUpdated xs ++ runUpdated ys := by
  obtain ⟨hd, hw, hr⟩ := processOne_error f e h
  refine ⟨hd, hr, ?_, ?_⟩
  · simp [runDiags, runOutcomes, List.map_append, List.filterMap_append, hd]
  · simp [runUpdated_eq, List.filter_append, List.filter_cons, hw]

/-- Witness for the amended C5 at a concrete unreadable file. -/
theorem claim_C5_witness :
    (fileUiMain.readFails = some "Permission denied" ∨
      (fileUiMain.readFails = none ∧ applyAll fileUiMain.content ≠ fileUiMain.content ∧
        fileUiMain.writeFails = some "Permission denied")) ∧
    ((processOne fileUiMain).diag =
        some ("Error " ++ fileUiMain.name ++ ": " ++ "Permission denied") ∧
      (processOne fileUiMain).reportEntry = none ∧
      runDiags ([] ++ fileUiMain :: []) =
        runDiags [] ++ ("Error " ++ fileUiMain.name ++ ": " ++ "Permission denied") ::
          runDiags [] ∧
      runUpdated ([] ++ fileUiMain :: []) = runUpdated [] ++ runUpdated []) :=
  ⟨Or.inl rfl, claim_C5_error_isolation [] [] fileUiMain "Permission denied" (Or.inl rfl)⟩

/-- C6: the report contains exactly the files that were successfully
changed and written, in processing order, and the output is the count line
followed by one indented line per updated file identifier; a file counts as
written exactly when its read succeeded, its content changed, and its write
succeeded. -/
theorem claim_C6_report_exact (fs : List FileModel) :
    runUpdated fs = (fs.filter fun f => (processOne f).wroteOk).map FileModel.name ∧
    outputLines fs =
      ("Updated " ++ toString (runUpdated fs).length ++ " files") ::
        (runUpdated fs).map (fun n => "  - " ++ n) ∧
    ∀ f : FileModel, (processOne f).wroteOk = true ↔
      (f.readFails = none ∧ applyAll f.content ≠ f.content ∧ f.writeFails = none) :=
  ⟨runUpdated_eq fs, rfl, wroteOk_iff⟩

/-- C7: a file's transformed content is a pure function of its original
content and the fixed table: the outcome of a file in a run does not depend
on the surrounding files, and two files with equal original content get
equal transformed content. -/
theorem claim_C7_purity :
    (∀ (xs ys : List FileModel) (f : FileModel),
      runOutcomes (xs ++ f :: ys) = runOutcomes xs ++ processOne f :: runOutcomes ys) ∧
    (∀ f g : FileModel, f.content = g.content →
      transformedContent f = transformedContent g) := by
  constructor
  · intro xs ys f
    simp [runOutcomes]
  · intro f g h
    simp [transformedContent, h]

/-- Witness for C7: equal contents in different directories and with
different write outcomes transform equally. -/
theorem claim_C7_witness :
    fileSuccessA.content = fileSuccessB.content ∧
      transformedContent fileSuccessA = transformedContent fileSuccessB :=
  ⟨rfl, claim_C7_purity.2 fileSuccessA fileSuccessB rfl⟩

/-- C10: the report entry and the diagnostic are built from the base name
alone: the outcome of a file is independent of its directory, an erroring
file's diagnostic is the literal "Error {name}: {message}" line, and two
files with distinct full paths but the same base name are indistinguishable
in the outcome. -/
theorem claim_C10_base_name_only :
    (∀ (d₁ d₂ : List String) (n c : String) (rf wf : Option String),
      processOne ⟨d₁, n, c, rf, wf⟩ = processOne ⟨d₂, n, c, rf, wf⟩) ∧
    (∀ (d : List String) (n c e : String) (wf : Option String),
      (processOne ⟨d, n, c, some e, wf⟩).diag = some ("Error " ++ n ++ ": " ++ e)) ∧
    fullPath fileUiMain ≠ fullPath fileSettingsMain ∧
    processOne fileUiMain = processOne fileSettingsMain :=
  ⟨fun _ _ _ _ _ _ => rfl, fun _ _ _ _ _ => rfl, by decide, rfl⟩
